import Mathlib

/-!
Verification of the OddsForge frontend edge-detection and prediction-display
logic, together with spec-level models of the backend rating engine.

Numeric values carried by the TypeScript code (probabilities, decimal odds,
edge values) are embedded as exact rationals (`ℚ`); optional fields
(`draw_probability?`, `market_draw_odds?`) are embedded as `Option ℚ`.
-/

namespace OddsForge

/-- Embeds the `Prediction` interface of `src/frontend/src/services/api.ts`
(lines 38-47): win probabilities, an optional draw probability, a model
version tag and a confidence score.  The `id`, `match_id` and `created_at`
fields are carried as opaque strings. -/
structure Prediction where
  id : String
  match_id : String
  home_win_probability : ℚ
  away_win_probability : ℚ
  draw_probability : Option ℚ
  model_version : String
  confidence_score : ℚ
  deriving Repr, DecidableEq

/-- Embeds the `Edge` interface of `src/frontend/src/services/api.ts`
(lines 56-64): a prediction paired with the market's decimal odds per
outcome and the backend-computed headline `edge_value`. -/
structure Edge where
  match_id : String
  our_prediction : Prediction
  market_home_odds : ℚ
  market_away_odds : ℚ
  market_draw_odds : Option ℚ
  edge_value : ℚ
  deriving Repr, DecidableEq

/-- Embeds `impliedProbability` (EdgeFinder, `src/unnamed/part_000` line 53):
`(odds: number) => 1 / odds`. -/
def impliedProbability (odds : ℚ) : ℚ := 1 / odds

/-- Embeds `getEdgeSeverity` (EdgeFinder, `src/unnamed/part_000` lines 33-37):
`if (edge > 0.15) return 'edge-high'; if (edge > 0.08) return 'edge-medium';
return 'edge-low';`.  The comparisons are on the signed edge value. -/
def getEdgeSeverity (edge : ℚ) : String :=
  if edge > 0.15 then "edge-high"
  else if edge > 0.08 then "edge-medium"
  else "edge-low"

/-- Embeds `getEdgeBadgeClass` (EdgeFinder table variant,
`src/unnamed/part_000` lines 271-275), identical thresholds to
`getEdgeSeverity` with different class strings. -/
def getEdgeBadgeClass (edge : ℚ) : String :=
  if edge > 0.15 then "edge-badge edge-badge-high"
  else if edge > 0.08 then "edge-badge edge-badge-medium"
  else "edge-badge edge-badge-low"

/-- Embeds `marketHomeProb` (EdgeFinder table row, `src/unnamed/part_000`
line 429): `1 / edge.market_home_odds`. -/
def marketHomeProb (e : Edge) : ℚ := 1 / e.market_home_odds

/-- Embeds `marketAwayProb` (`src/unnamed/part_000` line 430):
`1 / edge.market_away_odds`. -/
def marketAwayProb (e : Edge) : ℚ := 1 / e.market_away_odds

/-- Embeds `homeEdge` (`src/unnamed/part_000` line 431):
`edge.our_prediction.home_win_probability - marketHomeProb`. -/
def homeEdge (e : Edge) : ℚ :=
  e.our_prediction.home_win_probability - marketHomeProb e

/-- Embeds `awayEdge` (`src/unnamed/part_000` line 432):
`edge.our_prediction.away_win_probability - marketAwayProb`. -/
def awayEdge (e : Edge) : ℚ :=
  e.our_prediction.away_win_probability - marketAwayProb e

/-- Embeds `bestEdge` (`src/unnamed/part_000` line 433):
`Math.abs(homeEdge) > Math.abs(awayEdge) ? homeEdge : awayEdge`. -/
def bestEdge (e : Edge) : ℚ :=
  if |homeEdge e| > |awayEdge e| then homeEdge e else awayEdge e

/-- Concrete edge record with a negative home edge: model gives the home
side 30% while the market's 2.00 odds imply 50%. -/
def exNegativeEdge : Edge :=
  { match_id := "m-neg"
    our_prediction :=
      { id := "p-neg", match_id := "m-neg"
        home_win_probability := 3/10
        away_win_probability := 7/10
        draw_probability := none
        model_version := "ensemble_v1"
        confidence_score := 3/5 }
    market_home_odds := 2
    market_away_odds := 2
    market_draw_odds := none
    edge_value := 1/5 }

/-- C1: each per-outcome edge the EdgeFinder computes equals the model's
probability for that outcome minus the market implied probability
`1 / decimal_odds`, and the result can be negative (witnessed by
`exNegativeEdge`, where the home edge is `3/10 − 1/2 = −1/5`). -/
theorem edge_per_outcome_formula :
    (∀ e : Edge,
      homeEdge e =
        e.our_prediction.home_win_probability -
          impliedProbability e.market_home_odds ∧
      awayEdge e =
        e.our_prediction.away_win_probability -
          impliedProbability e.market_away_odds) ∧
    homeEdge exNegativeEdge < 0 := by
  refine ⟨fun e => ⟨rfl, rfl⟩, ?_⟩
  norm_num [homeEdge, marketHomeProb, exNegativeEdge]

/-- C2 counterexample: an edge of −0.2 has magnitude 0.2 > 0.15 yet
`getEdgeSeverity` classifies it "edge-low", not "edge-high" as it does
+0.2: the classification reads the signed value, not the magnitude. -/
theorem severity_not_magnitude_based :
    getEdgeSeverity (-(1/5 : ℚ)) = "edge-low" ∧
    getEdgeSeverity (1/5 : ℚ) = "edge-high" ∧
    getEdgeSeverity (-(1/5 : ℚ)) ≠ getEdgeSeverity (1/5 : ℚ) := by
  have h1 : getEdgeSeverity (-(1/5 : ℚ)) = "edge-low" := by
    unfold getEdgeSeverity
    split_ifs with ha hb
    · exact absurd ha (by norm_num)
    · exact absurd hb (by norm_num)
    · rfl
  have h2 : getEdgeSeverity (1/5 : ℚ) = "edge-high" := by
    unfold getEdgeSeverity
    split_ifs with ha hb
    · rfl
    · exact absurd (by norm_num : (0.15 : ℚ) < 1/5) ha
    · exact absurd (by norm_num : (0.15 : ℚ) < 1/5) ha
  refine ⟨h1, h2, ?_⟩
  rw [h1, h2]
  decide

/-- C2 amended: the severity classification is by the signed edge value
with strict thresholds — "edge-high" iff `e > 0.15`, "edge-medium" iff
`0.08 < e ≤ 0.15`, "edge-low" iff `e ≤ 0.08` (so every negative edge is
"edge-low"); `getEdgeBadgeClass` uses the same signed thresholds. -/
theorem severity_signed_thresholds (e : ℚ) :
    (getEdgeSeverity e = "edge-high" ↔ e > 0.15) ∧
    (getEdgeSeverity e = "edge-medium" ↔ 0.08 < e ∧ e ≤ 0.15) ∧
    (getEdgeSeverity e = "edge-low" ↔ e ≤ 0.08) ∧
    (e < 0 → getEdgeSeverity e = "edge-low") ∧
    (getEdgeBadgeClass e = "edge-badge edge-badge-high" ↔ e > 0.15) ∧
    (getEdgeBadgeClass e = "edge-badge edge-badge-medium" ↔
      0.08 < e ∧ e ≤ 0.15) ∧
    (getEdgeBadgeClass e = "edge-badge edge-badge-low" ↔ e ≤ 0.08) := by
  unfold getEdgeSeverity getEdgeBadgeClass
  split_ifs with h1 h2
  · exact ⟨iff_of_true rfl h1,
      iff_of_false (by decide) (fun h => absurd h1 (not_lt.mpr h.2)),
      iff_of_false (by decide) (fun h => absurd h1 (not_lt.mpr (by linarith))),
      fun h => absurd h1 (by intro hc; linarith),
      iff_of_true rfl h1,
      iff_of_false (by decide) (fun h => absurd h1 (not_lt.mpr h.2)),
      iff_of_false (by decide) (fun h => absurd h1 (not_lt.mpr (by linarith)))⟩
  · exact ⟨iff_of_false (by decide) h1,
      iff_of_true rfl ⟨h2, not_lt.mp h1⟩,
      iff_of_false (by decide) (fun h => absurd h2 (not_lt.mpr h)),
      fun h => absurd h2 (by intro hc; linarith),
      iff_of_false (by decide) h1,
      iff_of_true rfl ⟨h2, not_lt.mp h1⟩,
      iff_of_false (by decide) (fun h => absurd h2 (not_lt.mpr h))⟩
  · exact ⟨iff_of_false (by decide) h1,
      iff_of_false (by decide) (fun h => absurd h.1 h2),
      iff_of_true rfl (not_lt.mp h2),
      fun _ => rfl,
      iff_of_false (by decide) h1,
      iff_of_false (by decide) (fun h => absurd h.1 h2),
      iff_of_true rfl (not_lt.mp h2)⟩

/-- Devigged market implied probability for the home outcome, following the
spec's words ("odds across all outcomes normalized to sum to 1 before
inversion"): the home outcome's raw implied probability divided by the sum
of the raw implied probabilities of every outcome whose odds are present.
Stated only for comparison with the computation the code performs; no such
normalization appears anywhere in the EdgeFinder source. -/
def deviggedHomeProb (e : Edge) : ℚ :=
  (1 / e.market_home_odds) /
    (1 / e.market_home_odds + 1 / e.market_away_odds +
      (match e.market_draw_odds with
       | some d => 1 / d
       | none => 0))

/-- Concrete edge record in which the draw outcome has the strictly largest
per-outcome edge: model draw probability 2/5 against draw odds 10 (implied
1/10) gives a draw edge of 3/10, while home and away edges are both 0. -/
def exDrawDominant : Edge :=
  { match_id := "m-draw"
    our_prediction :=
      { id := "p-draw", match_id := "m-draw"
        home_win_probability := 3/10
        away_win_probability := 3/10
        draw_probability := some (2/5)
        model_version := "ensemble_v1"
        confidence_score := 3/5 }
    market_home_odds := 10/3
    market_away_odds := 10/3
    market_draw_odds := some 10
    edge_value := 3/10 }

/-- Concrete edge record with home and away odds of different bookmaker
margin: home odds 2 (raw implied 1/2) and away odds 9/5 (raw implied 5/9),
which sum to 19/18 > 1, so the raw and devigged implied probabilities
differ. -/
def exOverround : Edge :=
  { match_id := "m-vig"
    our_prediction :=
      { id := "p-vig", match_id := "m-vig"
        home_win_probability := 13/20
        away_win_probability := 7/20
        draw_probability := none
        model_version := "ensemble_v1"
        confidence_score := 3/5 }
    market_home_odds := 2
    market_away_odds := 9/5
    market_draw_odds := none
    edge_value := 3/20 }

/-- C3 counterexample: on `exDrawDominant` the draw odds are present and the
draw outcome's per-outcome edge (model draw probability minus its implied
probability) is 3/10, strictly larger in magnitude than both the home and
away edges (both 0); yet `bestEdge` returns 0, the away edge — the dominant
edge never considers the draw outcome. -/
theorem dominant_edge_ignores_draw :
    exDrawDominant.market_draw_odds = some 10 ∧
    exDrawDominant.our_prediction.draw_probability.getD 0 -
      impliedProbability (exDrawDominant.market_draw_odds.getD 0) = 3/10 ∧
    bestEdge exDrawDominant = 0 ∧
    |bestEdge exDrawDominant| <
      |exDrawDominant.our_prediction.draw_probability.getD 0 -
        impliedProbability (exDrawDominant.market_draw_odds.getD 0)| := by
  refine ⟨rfl, by norm_num [exDrawDominant, impliedProbability], ?_, ?_⟩
  · unfold bestEdge homeEdge awayEdge marketHomeProb marketAwayProb
    norm_num [exDrawDominant]
  · unfold bestEdge homeEdge awayEdge marketHomeProb marketAwayProb
    norm_num [exDrawDominant, impliedProbability]

/-- C3 amended: the dominant edge is chosen among the home and away edges
only — it is whichever of the two has weakly larger absolute value (the
away edge on ties), keeping its signed value; the draw outcome is never
consulted, even when draw odds and a draw probability are present. -/
theorem dominant_edge_home_away_only (e : Edge) :
    (bestEdge e = homeEdge e ∨ bestEdge e = awayEdge e) ∧
    |bestEdge e| = max |homeEdge e| |awayEdge e| := by
  unfold bestEdge
  split_ifs with h
  · exact ⟨Or.inl rfl, (max_eq_left h.le).symm⟩
  · exact ⟨Or.inr rfl, (max_eq_right (not_lt.mp h)).symm⟩

/-- C5 counterexample: on `exOverround` both the home and away odds are
present (more than one outcome), yet the market implied probability the
edge computation uses for the home outcome is the raw reciprocal
`1/2 = 0.5`, not the devigged value `9/19 ≈ 0.4737`. -/
theorem raw_not_devigged :
    marketHomeProb exOverround = 1/2 ∧
    deviggedHomeProb exOverround = 9/19 ∧
    marketHomeProb exOverround ≠ deviggedHomeProb exOverround := by
  refine ⟨?_, ?_, ?_⟩
  · norm_num [marketHomeProb, exOverround]
  · norm_num [deviggedHomeProb, exOverround]
  · norm_num [marketHomeProb, deviggedHomeProb, exOverround]

/-- C5 amended: the edge computation always uses the raw per-outcome
reciprocal `1 / decimal_odds` as the market implied probability — even
when every outcome's odds, draw included, are present — and never the
devigged normalization. -/
theorem edge_always_uses_raw_implied (e : Edge)
    (h : e.market_draw_odds.isSome) :
    marketHomeProb e = impliedProbability e.market_home_odds ∧
    marketAwayProb e = impliedProbability e.market_away_odds ∧
    homeEdge e =
      e.our_prediction.home_win_probability - 1 / e.market_home_odds ∧
    awayEdge e =
      e.our_prediction.away_win_probability - 1 / e.market_away_odds :=
  ⟨rfl, rfl, rfl, rfl⟩

/-- Witness for `edge_always_uses_raw_implied` at the concrete record
`exDrawDominant`, whose draw odds are present. -/
theorem edge_always_uses_raw_implied_witness :
    exDrawDominant.market_draw_odds.isSome ∧
    (marketHomeProb exDrawDominant =
      impliedProbability exDrawDominant.market_home_odds ∧
    marketAwayProb exDrawDominant =
      impliedProbability exDrawDominant.market_away_odds ∧
    homeEdge exDrawDominant =
      exDrawDominant.our_prediction.home_win_probability -
        1 / exDrawDominant.market_home_odds ∧
    awayEdge exDrawDominant =
      exDrawDominant.our_prediction.away_win_probability -
        1 / exDrawDominant.market_away_odds) :=
  ⟨rfl, edge_always_uses_raw_implied exDrawDominant rfl⟩

/-- C6: the edge computation is a pure function of the prediction's
probabilities and the market odds: any two records agreeing on those input
fields — regardless of identifiers, timestamps or any other field —
produce identical home, away and dominant edges.  Recomputing on the very
same record is the special case `a = b`.  (In this embedding every
operation is a mathematical function, so the computation can neither
mutate its inputs nor read hidden state; the TypeScript source likewise
only reads `edge.our_prediction.*` and `edge.market_*_odds`.) -/
theorem edge_computation_pure (a b : Edge)
    (hh : a.our_prediction.home_win_probability =
      b.our_prediction.home_win_probability)
    (ha : a.our_prediction.away_win_probability =
      b.our_prediction.away_win_probability)
    (hmh : a.market_home_odds = b.market_home_odds)
    (hma : a.market_away_odds = b.market_away_odds) :
    homeEdge a = homeEdge b ∧ awayEdge a = awayEdge b ∧
    bestEdge a = bestEdge b := by
  have e1 : homeEdge a = homeEdge b := by
    unfold homeEdge marketHomeProb
    rw [hh, hmh]
  have e2 : awayEdge a = awayEdge b := by
    unfold awayEdge marketAwayProb
    rw [ha, hma]
  refine ⟨e1, e2, ?_⟩
  unfold bestEdge
  rw [e1, e2]

/-- Witness for `edge_computation_pure`: `exOverround` compared against a
copy of itself bearing a different match identifier; all four input-field
hypotheses hold by `rfl` and the computed edges coincide. -/
theorem edge_computation_pure_witness :
    homeEdge exOverround = homeEdge { exOverround with match_id := "m-vig2" } ∧
    awayEdge exOverround = awayEdge { exOverround with match_id := "m-vig2" } ∧
    bestEdge exOverround = bestEdge { exOverround with match_id := "m-vig2" } :=
  edge_computation_pure exOverround { exOverround with match_id := "m-vig2" }
    rfl rfl rfl rfl

/-- JavaScript truthiness of an optional numeric field as used by the
rendering guards: `undefined` (here `none`) and `0` are falsy, every other
number is truthy (`NaN` cannot arise in `ℚ`). -/
def jsTruthy : Option ℚ → Bool
  | none => false
  | some x => x != 0

/-- Embeds the guard of the model-draw row (`src/unnamed/part_000` lines
181-186): `edge.our_prediction.draw_probability && (<draw row>)` — the row
renders exactly when the field is truthy. -/
def showModelDrawRow (e : Edge) : Bool :=
  jsTruthy e.our_prediction.draw_probability

/-- Embeds the guard of the market draw-odds line (`src/unnamed/part_000`
lines 485-487): `edge.market_draw_odds && (<draw odds line>)`. -/
def showMarketDrawOddsRow (e : Edge) : Bool :=
  jsTruthy e.market_draw_odds

/-- Embeds the MatchCard draw-probability guard (`src/unnamed/part_001`
lines 381-383): `m.sport === 'football' && p?.draw_probability && (...)`,
specialised to a present prediction. -/
def matchCardShowsDraw (sport : String) (p : Prediction) : Bool :=
  sport == "football" && jsTruthy p.draw_probability

/-- Embeds the Dashboard draw-probability guard (`src/unnamed/part_002`
lines 176-180): `match.match_info.sport === 'football' &&
match.prediction?.draw_probability && (...)`, specialised to a present
prediction. -/
def dashboardShowsDraw (sport : String) (p : Prediction) : Bool :=
  sport == "football" && jsTruthy p.draw_probability

/-- Embeds `homeWins` (MatchCard, `src/unnamed/part_001` lines 356-357) for
a present prediction: `p.home_win_probability > p.away_win_probability &&
(!p.draw_probability || p.home_win_probability > p.draw_probability)`. -/
def homeWins (p : Prediction) : Bool :=
  decide (p.home_win_probability > p.away_win_probability) &&
    (!jsTruthy p.draw_probability ||
      decide (p.home_win_probability > p.draw_probability.getD 0))

/-- Embeds `awayWins` (MatchCard, `src/unnamed/part_001` lines 358-359). -/
def awayWins (p : Prediction) : Bool :=
  decide (p.away_win_probability > p.home_win_probability) &&
    (!jsTruthy p.draw_probability ||
      decide (p.away_win_probability > p.draw_probability.getD 0))

/-- Embeds the MatchCard prediction-summary label (`src/unnamed/part_001`
lines 413-421): `homeWins ? m.home_team_name : awayWins ? m.away_team_name
: 'Draw'`. -/
def favoursLabel (p : Prediction) (homeName awayName : String) : String :=
  if homeWins p then homeName
  else if awayWins p then awayName
  else "Draw"

/-- Embeds `getWinnerPrediction` (Dashboard, `src/unnamed/part_002` lines
33-45) for a present prediction (the source returns `null` for an absent
one): a truthy draw probability strictly above both win probabilities
yields `draw`; otherwise `home` if strictly ahead, else `away`. -/
def getWinnerPrediction (p : Prediction) : String × ℚ :=
  if jsTruthy p.draw_probability &&
      decide (p.draw_probability.getD 0 > p.home_win_probability) &&
      decide (p.draw_probability.getD 0 > p.away_win_probability) then
    ("draw", p.draw_probability.getD 0)
  else if decide (p.home_win_probability > p.away_win_probability) then
    ("home", p.home_win_probability)
  else
    ("away", p.away_win_probability)

/-- Concrete prediction whose draw probability is exactly `some 0`. -/
def exZeroDrawPrediction : Prediction :=
  { id := "p-zd", match_id := "m-zd"
    home_win_probability := 11/20
    away_win_probability := 9/20
    draw_probability := some 0
    model_version := "ensemble_v1"
    confidence_score := 7/10 }

/-- Concrete edge record with a zero draw probability and zero draw odds. -/
def exZeroDrawEdge : Edge :=
  { match_id := "m-zd"
    our_prediction := exZeroDrawPrediction
    market_home_odds := 2
    market_away_odds := 2
    market_draw_odds := some 0
    edge_value := 1/20 }

/-- C9: in each of the four draw-rendering guards, a value of exactly 0
behaves identically to an absent (`undefined`) value: JavaScript truthiness
makes the guard false in both cases, so the draw entry is omitted. -/
theorem draw_zero_renders_as_absent (p : Prediction) (e : Edge) (s : String)
    (hp : p.draw_probability = some 0 ∨ p.draw_probability = none)
    (he : e.our_prediction.draw_probability = some 0 ∨
      e.our_prediction.draw_probability = none)
    (hm : e.market_draw_odds = some 0 ∨ e.market_draw_odds = none) :
    showModelDrawRow e = false ∧
    showMarketDrawOddsRow e = false ∧
    matchCardShowsDraw s p = false ∧
    dashboardShowsDraw s p = false := by
  have key : ∀ q : Option ℚ, q = some 0 ∨ q = none → jsTruthy q = false := by
    rintro q (rfl | rfl) <;> rfl
  refine ⟨?_, ?_, ?_, ?_⟩
  · simp [showModelDrawRow, key _ he]
  · simp [showMarketDrawOddsRow, key _ hm]
  · simp [matchCardShowsDraw, key _ hp]
  · simp [dashboardShowsDraw, key _ hp]

/-- Witness for `draw_zero_renders_as_absent` at `exZeroDrawPrediction` /
`exZeroDrawEdge` (draw probability `some 0`, draw odds `some 0`) and the
sport "football". -/
theorem draw_zero_renders_as_absent_witness :
    showModelDrawRow exZeroDrawEdge = false ∧
    showMarketDrawOddsRow exZeroDrawEdge = false ∧
    matchCardShowsDraw "football" exZeroDrawPrediction = false ∧
    dashboardShowsDraw "football" exZeroDrawPrediction = false :=
  draw_zero_renders_as_absent exZeroDrawPrediction exZeroDrawEdge "football"
    (Or.inl rfl) (Or.inl rfl) (Or.inl rfl)

/-- Concrete prediction with tied win probabilities and no draw
probability, as a binary-sport prediction would be. -/
def exTiedBinary : Prediction :=
  { id := "p-tie", match_id := "m-tie"
    home_win_probability := 1/2
    away_win_probability := 1/2
    draw_probability := none
    model_version := "ensemble_v1"
    confidence_score := 1/2 }

/-- C10 counterexample: for the tied binary prediction `exTiedBinary`
(equal win probabilities, no draw probability), the Dashboard's
`getWinnerPrediction` returns type "away" — the away team is marked as
favourite — rather than "Draw" as the claim states. -/
theorem tie_marks_away_favourite :
    exTiedBinary.home_win_probability = exTiedBinary.away_win_probability ∧
    exTiedBinary.draw_probability = none ∧
    getWinnerPrediction exTiedBinary =
      ("away", exTiedBinary.away_win_probability) ∧
    (getWinnerPrediction exTiedBinary).1 ≠ "draw" := by
  refine ⟨rfl, rfl, ?_, ?_⟩ <;>
    simp [getWinnerPrediction, exTiedBinary, jsTruthy]

/-- C10 amended: on a tie between home and away win probabilities with no
draw probability strictly exceeding them, the MatchCard (part_001) marks
neither team as favourite and labels the favoured outcome "Draw", but the
Dashboard of part_002 (`getWinnerPrediction`) falls through to its `else`
branch and favours the away team — including for binary-sport predictions
with no draw probability at all. -/
theorem tie_favoured_outcome (p : Prediction) (hn an : String)
    (heq : p.home_win_probability = p.away_win_probability)
    (hd : ∀ d, p.draw_probability = some d → d ≤ p.home_win_probability) :
    homeWins p = false ∧
    awayWins p = false ∧
    favoursLabel p hn an = "Draw" ∧
    getWinnerPrediction p = ("away", p.away_win_probability) := by
  have h1 : homeWins p = false := by
    simp [homeWins, heq]
  have h2 : awayWins p = false := by
    simp [awayWins, heq]
  refine ⟨h1, h2, ?_, ?_⟩
  · simp [favoursLabel, h1, h2]
  · unfold getWinnerPrediction
    rcases hq : p.draw_probability with _ | d
    · simp [jsTruthy, heq]
    · have hle : d ≤ p.home_win_probability := hd d hq
      have hmid :
          decide (p.draw_probability.getD 0 > p.home_win_probability) =
            false := by
        rw [hq]
        simpa using not_lt.mpr hle
      simp [hmid, heq]
      exact fun _ => heq ▸ hle

/-- Witness for `tie_favoured_outcome` at the tied binary prediction
`exTiedBinary` with team names "Arsenal" and "Chelsea". -/
theorem tie_favoured_outcome_witness :
    homeWins exTiedBinary = false ∧
    awayWins exTiedBinary = false ∧
    favoursLabel exTiedBinary "Arsenal" "Chelsea" = "Draw" ∧
    getWinnerPrediction exTiedBinary =
      ("away", exTiedBinary.away_win_probability) :=
  tie_favoured_outcome exTiedBinary "Arsenal" "Chelsea" rfl
    (fun d h => nomatch h)

/-- Modelled from the spec: which sports support draws — football does,
basketball does not (spec §3, §4.4; the README: "Football … (with draws)",
"Basketball: NBA (binary outcomes)").  The Rust backend that carries this
branching is not under `src/`. -/
def sportSupportsDraws (sport : String) : Bool := sport == "football"

/-- Modelled from the spec: the EnsemblePredictor's base draw probability
constant (§4.4, "a base draw probability constant (e.g. 0.25)"). -/
def baseDrawProbability : ℚ := 1/4

/-- Modelled from the spec: the fixed ensemble weights (ELO 0.5,
head-to-head 0.3, form 0.2) combining the three home-favour signals into
the raw home-win strength (§4.4). -/
def ensembleHomeStrength (elo h2h form : ℚ) : ℚ :=
  (1/2) * elo + (3/10) * h2h + (1/5) * form

/-- Modelled from the spec: the EnsemblePredictor's outcome distribution
(§4.4); the Rust `backend/src/services/predictor.rs` is not under `src/`.
Away-win strength is the complement of the weighted home-win strength; for
a draw-supporting sport both shares are scaled by `1 − base_draw` and the
draw probability is the base constant (the triple then already sums to 1,
so §4.4's final renormalization is the identity); a binary sport keeps the
two-outcome distribution and no draw term.  The confidence score, whose
derivation the probability invariants do not need, is taken as an input
signal and clamped to `[1/2, 1]` per §4.4. -/
def predict (sport : String) (elo h2h form conf : ℚ) : Prediction :=
  if sportSupportsDraws sport then
    { id := "p", match_id := "m"
      home_win_probability :=
        ensembleHomeStrength elo h2h form * (1 - baseDrawProbability)
      away_win_probability :=
        (1 - ensembleHomeStrength elo h2h form) * (1 - baseDrawProbability)
      draw_probability := some baseDrawProbability
      model_version := "ensemble_v1"
      confidence_score := min 1 (max (1/2) conf) }
  else
    { id := "p", match_id := "m"
      home_win_probability := ensembleHomeStrength elo h2h form
      away_win_probability := 1 - ensembleHomeStrength elo h2h form
      draw_probability := none
      model_version := "ensemble_v1"
      confidence_score := min 1 (max (1/2) conf) }

/-- C7: for component signals in `[0, 1]`, every prediction the (spec-
modelled) EnsemblePredictor produces has non-negative probabilities, its
draw probability is present exactly when the sport supports draws, and the
outcome probabilities sum to 1 within the 1e-6 tolerance — three-way for a
draw-supporting sport, two-way for a binary sport (the sums are exact, so
the tolerance holds with slack). -/
theorem prediction_distribution_invariant (sport : String)
    (elo h2h form conf : ℚ)
    (he0 : 0 ≤ elo) (he1 : elo ≤ 1) (hh0 : 0 ≤ h2h) (hh1 : h2h ≤ 1)
    (hf0 : 0 ≤ form) (hf1 : form ≤ 1) :
    0 ≤ (predict sport elo h2h form conf).home_win_probability ∧
    0 ≤ (predict sport elo h2h form conf).away_win_probability ∧
    0 ≤ ((predict sport elo h2h form conf).draw_probability).getD 0 ∧
    ((predict sport elo h2h form conf).draw_probability).isSome =
      sportSupportsDraws sport ∧
    (sportSupportsDraws sport = true →
      |(predict sport elo h2h form conf).home_win_probability +
        ((predict sport elo h2h form conf).draw_probability).getD 0 +
        (predict sport elo h2h form conf).away_win_probability - 1| ≤
          1/1000000) ∧
    (sportSupportsDraws sport = false →
      |(predict sport elo h2h form conf).home_win_probability +
        (predict sport elo h2h form conf).away_win_probability - 1| ≤
          1/1000000) := by
  have hs0 : 0 ≤ ensembleHomeStrength elo h2h form := by
    unfold ensembleHomeStrength
    linarith
  have hs1 : ensembleHomeStrength elo h2h form ≤ 1 := by
    unfold ensembleHomeStrength
    linarith
  unfold predict
  by_cases hsd : sportSupportsDraws sport = true
  · rw [if_pos hsd, hsd]
    dsimp only
    refine ⟨?_, ?_, ?_, rfl, ?_, ?_⟩
    · exact mul_nonneg hs0 (by norm_num [baseDrawProbability])
    · exact mul_nonneg (by linarith) (by norm_num [baseDrawProbability])
    · norm_num [baseDrawProbability]
    · intro _
      have hz : ensembleHomeStrength elo h2h form * (1 - baseDrawProbability)
          + (some baseDrawProbability).getD 0 +
          (1 - ensembleHomeStrength elo h2h form) *
            (1 - baseDrawProbability) - 1 = 0 := by
        unfold baseDrawProbability
        norm_num
        ring
      rw [hz]
      norm_num
    · intro hc
      exact absurd hc (by norm_num)
  · have hsd2 : sportSupportsDraws sport = false := by
      simpa using hsd
    rw [if_neg hsd, hsd2]
    dsimp only
    refine ⟨hs0, by linarith, by norm_num, rfl, ?_, ?_⟩
    · intro hc
      exact absurd hc (by norm_num)
    · intro _
      have hz : ensembleHomeStrength elo h2h form +
          (1 - ensembleHomeStrength elo h2h form) - 1 = 0 := by
        ring
      rw [hz]
      norm_num

/-- Witness for `prediction_distribution_invariant`: football with every
component signal equal to 1/2 and raw confidence 7/10. -/
theorem prediction_distribution_invariant_witness :
    ((0:ℚ) ≤ 1/2 ∧ (1/2:ℚ) ≤ 1) ∧
    0 ≤ (predict "football" (1/2) (1/2) (1/2) (7/10)).home_win_probability ∧
    0 ≤ (predict "football" (1/2) (1/2) (1/2) (7/10)).away_win_probability ∧
    0 ≤ ((predict "football" (1/2) (1/2) (1/2)
      (7/10)).draw_probability).getD 0 ∧
    ((predict "football" (1/2) (1/2) (1/2) (7/10)).draw_probability).isSome =
      sportSupportsDraws "football" ∧
    |(predict "football" (1/2) (1/2) (1/2) (7/10)).home_win_probability +
      ((predict "football" (1/2) (1/2) (1/2) (7/10)).draw_probability).getD 0 +
      (predict "football" (1/2) (1/2) (1/2) (7/10)).away_win_probability - 1|
        ≤ 1/1000000 := by
  obtain ⟨c1, c2, c3, c4, c5, c6⟩ :=
    prediction_distribution_invariant "football" (1/2) (1/2) (1/2) (7/10)
      (by norm_num) (by norm_num) (by norm_num) (by norm_num)
      (by norm_num) (by norm_num)
  exact ⟨⟨by norm_num, by norm_num⟩, c1, c2, c3, c4, c5 rfl⟩

/-- Modelled from the spec: the EloEngine's expected score (§4.1),
`E = 1 / (1 + 10^((R_B − R_A)/400))` for a side effectively rated `ra`
against `rb`.  The fixed home-advantage offset of §4.1 is folded into the
effective ratings by the caller and affects only the value of the expected
score, never its range `(0, 1)`.  The Rust
`backend/src/services/elo_calculator.rs` is not under `src/`. -/
noncomputable def expectedScore (ra rb : ℝ) : ℝ :=
  1 / (1 + (10 : ℝ) ^ ((rb - ra) / 400))

/-- Modelled from the spec: the margin multiplier (§4.1, "e.g.
`log(|margin| + 1)` scaling, floor of 1.0 for margin 0"). -/
noncomputable def marginMultiplier (margin : ℕ) : ℝ :=
  max 1 (Real.log (margin + 1))

/-- Modelled from the spec: `EloEngine.update` for a decisive result
(§4.1).  The winner's actual score is 1, so its delta is
`K * margin_multiplier * (1 − E_winner)`; the loser receives the same
delta with opposite sign, conserving rating mass. -/
noncomputable def eloUpdate (K : ℝ) (winnerRating loserRating : ℝ)
    (margin : ℕ) : ℝ × ℝ :=
  (K * marginMultiplier margin * (1 - expectedScore winnerRating loserRating),
   -(K * marginMultiplier margin *
      (1 - expectedScore winnerRating loserRating)))

/-- C8: for any positive K-factor, any (finite, effective) ratings and any
margin, the (spec-modelled) EloEngine update gives the winner a strictly
positive delta and the loser a strictly negative one — so the winner's
rating strictly increases and the loser's strictly decreases — and the two
deltas have equal magnitude. -/
theorem elo_winner_up_loser_down (K wr lr : ℝ) (margin : ℕ)
    (hK : 0 < K) :
    wr < wr + (eloUpdate K wr lr margin).1 ∧
    lr + (eloUpdate K wr lr margin).2 < lr ∧
    |(eloUpdate K wr lr margin).1| = |(eloUpdate K wr lr margin).2| := by
  have hpow : (0:ℝ) < (10 : ℝ) ^ ((lr - wr) / 400) :=
    Real.rpow_pos_of_pos (by norm_num) _
  have hE : expectedScore wr lr < 1 := by
    unfold expectedScore
    rw [div_lt_one (by linarith)]
    linarith
  have hM : (1:ℝ) ≤ marginMultiplier margin := le_max_left _ _
  have hdelta : 0 < K * marginMultiplier margin *
      (1 - expectedScore wr lr) :=
    mul_pos (mul_pos hK (lt_of_lt_of_le one_pos hM)) (by linarith)
  unfold eloUpdate
  dsimp only
  exact ⟨by linarith, by linarith, (abs_neg _).symm⟩

/-- Witness for `elo_winner_up_loser_down`: K = 32, ratings 1600 vs 1400,
margin 3. -/
theorem elo_winner_up_loser_down_witness :
    (0:ℝ) < 32 ∧
    ((1600:ℝ) < 1600 + (eloUpdate 32 1600 1400 3).1 ∧
     (1400:ℝ) + (eloUpdate 32 1600 1400 3).2 < 1400 ∧
     |(eloUpdate 32 1600 1400 3).1| = |(eloUpdate 32 1600 1400 3).2|) :=
  ⟨by norm_num, elo_winner_up_loser_down 32 1600 1400 3 (by norm_num)⟩

end OddsForge
